import Mathlib

/-!
Verification of the gCalendar MCP server (src/index.js) against its
natural-language specification.  The JavaScript source is shallowly
embedded: the event-payload construction in `createCalendarEvent`
(src/index.js lines 101-180) becomes a pure Lean function, the
`CallToolRequestSchema` handler (lines 188-224) becomes a dispatcher
function parameterised over the remote calendar client (the
`calendar.events.insert` call), and JavaScript exceptions become
`Except String`.  Optional JSON fields are `Option`-typed; the
JavaScript truthiness tests (`if (args.location)` and friends) are
rendered faithfully: a present string is truthy iff it is non-empty,
while a present array or object is always truthy.
-/

namespace GCalendar

/-- One reminder override `{method, minutes}` from the
`reminders.overrides` schema (src/index.js lines 55-68). -/
structure ReminderOverride where
  method : String
  minutes : Int
deriving DecidableEq, Repr

/-- The `reminders` argument object `{useDefault, overrides}`
(src/index.js lines 46-73). -/
structure Reminders where
  useDefault : Bool
  overrides : List ReminderOverride
deriving DecidableEq, Repr

/-- The argument bag of a `create_event` call, typed by the tool's
input schema (src/index.js lines 18-76).  A field that is absent from
the JSON object is `none`. -/
structure EventArgs where
  summary : Option String := none
  start_time : Option String := none
  end_time : Option String := none
  description : Option String := none
  location : Option String := none
  attendees : Option (List String) := none
  reminders : Option Reminders := none
deriving DecidableEq, Repr

/-- A `{dateTime, timeZone}` sub-structure as built at
src/index.js lines 131-138.  `dateTime` is `Option` because the code
copies `args.start_time` through unchecked, so it can be absent. -/
structure EventTime where
  dateTime : Option String
  timeZone : String
deriving DecidableEq, Repr

/-- An attendee structure `{email}` (src/index.js line 148). -/
structure Attendee where
  email : String
deriving DecidableEq, Repr

/-- The event payload assembled by `createCalendarEvent`
(src/index.js lines 128-164).  Fields that the code only sets
conditionally are `Option`-typed; `reminders` is `Option` only because
it is assigned after the initial object literal, and both branches of
the assignment set it. -/
structure CalendarEvent where
  summary : Option String
  description : Option String
  start : EventTime
  «end» : EventTime
  location : Option String := none
  attendees : Option (List Attendee) := none
  reminders : Option Reminders := none
deriving DecidableEq, Repr

/-- The default reminder policy substituted at src/index.js
lines 157-162 when the caller supplies none. -/
def defaultReminders : Reminders :=
  { useDefault := false, overrides := [{ method := "popup", minutes := 10 }] }

/-- The payload-construction part of `createCalendarEvent`
(src/index.js lines 128-164), mirrored statement by statement:
the object literal with `summary`, `description`, `start`, `end`
(both tagged `Asia/Seoul`), then the three conditional assignments
for `location`, `attendees` and `reminders`.  `if (args.location)` is
truthy iff the string is present and non-empty; `if (args.attendees)`
is truthy for any present array (including the empty one);
`if (args.reminders)` is truthy for any present object. -/
def createEventPayload (args : EventArgs) : CalendarEvent :=
  let event : CalendarEvent :=
    { summary := args.summary
      description := args.description
      start := { dateTime := args.start_time, timeZone := "Asia/Seoul" }
      «end» := { dateTime := args.end_time, timeZone := "Asia/Seoul" } }
  let event :=
    match args.location with
    | some l => if l = "" then event else { event with location := some l }
    | none => event
  let event :=
    match args.attendees with
    | some emails =>
        { event with attendees := some (emails.map (fun email => { email := email })) }
    | none => event
  let event :=
    match args.reminders with
    | some r => { event with reminders := some r }
    | none => { event with reminders := some defaultReminders }
  event

/-- The whole of `createCalendarEvent` (src/index.js lines 101-180):
build the payload, attempt the remote insertion, and on success format
`Event created: <htmlLink>`; the surrounding try/catch rewraps any
error as `Failed to create event: <message>`.  The remote call
`calendar.events.insert` is abstracted as the `insert` parameter,
returning either the created event's `htmlLink` or an error message. -/
def createCalendarEvent (insert : CalendarEvent → Except String String)
    (args : EventArgs) : Except String String :=
  let event := createEventPayload args
  match insert event with
  | Except.ok htmlLink => Except.ok ("Event created: " ++ htmlLink)
  | Except.error msg => Except.error ("Failed to create event: " ++ msg)

/-- One `{type, text}` content item of a tool result
(src/index.js lines 203, 210, 217-220). -/
structure TextContent where
  type : String
  text : String
deriving DecidableEq, Repr

/-- The structured result `{content, isError}` returned by the call
handler (src/index.js lines 202-205, 209-212, 216-222). -/
structure CallToolResult where
  content : List TextContent
  isError : Bool
deriving DecidableEq, Repr

/-- A tool-invocation request: `request.params` carries `name` and the
optional `arguments` bag (src/index.js line 192). -/
structure CallRequest where
  name : String
  arguments : Option EventArgs
deriving Repr

/-- The `CallToolRequestSchema` handler (src/index.js lines 188-224),
parameterised over the remote calendar client.  Inside the try block:
absent `arguments` throws `No arguments provided`; the switch on the
tool name runs `createCalendarEvent` for `create_event` (errors it
throws propagate to the catch) and returns the `Unknown tool: <name>`
error result for any other name; the catch clause converts every
thrown error into `{content: [{type: "text", text: `Error: <msg>`}],
isError: true}`. -/
def callToolHandler (insert : CalendarEvent → Except String String)
    (request : CallRequest) : CallToolResult :=
  let tried : Except String CallToolResult :=
    match request.arguments with
    | none => Except.error "No arguments provided"
    | some args =>
      if request.name = "create_event" then
        match createCalendarEvent insert args with
        | Except.ok result =>
            Except.ok { content := [{ type := "text", text := result }], isError := false }
        | Except.error e => Except.error e
      else
        Except.ok
          { content := [{ type := "text", text := "Unknown tool: " ++ request.name }]
            isError := true }
  match tried with
  | Except.ok r => r
  | Except.error e =>
      { content := [{ type := "text", text := "Error: " ++ e }], isError := true }

/-- The log-line emitter `debugLog` (src/index.js lines 10-12): it
writes `DEBUG:` plus a timestamp plus its arguments to stderr
unconditionally.  The source consults no environment variable and has
no severity threshold, so whatever threshold or severity one supposes
the line to have, it is emitted. -/
def debugLogEmits (_threshold : Nat) (_severity : Nat) : Bool :=
  true

/-- Modelled from the spec (section 4.4), not from the source: the
four severities `silent=0 < error=1 < info=2 < debug=3`, and the rule
that a line of severity `s` is emitted iff `rank s ≤ rank t` for the
configured threshold `t`.  Ranks are passed as the numbers the spec
assigns. -/
def specLogEmits (threshold : Nat) (severity : Nat) : Bool :=
  severity ≤ threshold

/-! ## Theorems for the claims -/

/-- Claim C1: for every `create_event` argument bag, the built event's
reminder policy equals the supplied `reminders` value verbatim when it
is present, and when it is absent it equals exactly one override
`{method: "popup", minutes: 10}` with `useDefault: false`; no merging
of supplied reminders with defaults occurs. -/
theorem c1_reminder_policy (args : EventArgs) :
    (∀ r : Reminders, args.reminders = some r →
      (createEventPayload args).reminders = some r) ∧
    (args.reminders = none →
      (createEventPayload args).reminders =
        some { useDefault := false, overrides := [{ method := "popup", minutes := 10 }] }) := by
  constructor
  · intro r hr
    simp only [createEventPayload, hr]
  · intro hnone
    simp only [createEventPayload, hnone, defaultReminders]

/-- Witness for C1 at concrete inputs: a supplied policy is passed
through verbatim, and an absent one yields the fixed default. -/
theorem c1_reminder_policy_witness :
    (createEventPayload { reminders := some { useDefault := true, overrides := [] } }).reminders =
      some { useDefault := true, overrides := [] } ∧
    (createEventPayload {}).reminders =
      some { useDefault := false, overrides := [{ method := "popup", minutes := 10 }] } :=
  ⟨(c1_reminder_policy _).1 _ rfl, (c1_reminder_policy _).2 rfl⟩

/-- Counterexample to claim C2 as stated: with `summary`, `start_time`
and `end_time` all missing, the building step does not fail with an
argument error — it constructs a draft (with those fields absent) and
proceeds to the remote call, whose successful outcome is returned. -/
theorem c2_counterexample :
    createEventPayload {} =
      { summary := none, description := none
        start := { dateTime := none, timeZone := "Asia/Seoul" }
        «end» := { dateTime := none, timeZone := "Asia/Seoul" }
        location := none, attendees := none
        reminders := some defaultReminders } ∧
    createCalendarEvent (fun _ => Except.ok "link0") {} =
      Except.ok ("Event created: " ++ "link0") := ⟨rfl, rfl⟩

/-- Amended C2: for every argument bag in which `summary`,
`start_time` or `end_time` is missing, the event-building step does
not fail: the draft is still constructed with that field absent and
the remote call is attempted (here: a client that accepts every
payload is invoked and its result returned). -/
theorem c2_no_argument_validation (args : EventArgs) (link : String)
    (_h : args.summary = none ∨ args.start_time = none ∨ args.end_time = none) :
    createCalendarEvent (fun _ => Except.ok link) args =
      Except.ok ("Event created: " ++ link) := by
  simp only [createCalendarEvent]

/-- Witness for the amended C2 at the empty argument bag. -/
theorem c2_no_argument_validation_witness :
    createCalendarEvent (fun _ => Except.ok "L") {} =
      Except.ok ("Event created: " ++ "L") :=
  c2_no_argument_validation {} "L" (Or.inl rfl)

/-- Claim C6: an argument bag with no `attendees` field yields an
event with no attendee list, and a bag whose `attendees` is a list of
N email strings yields exactly N entries `{email: <original string>}`
in the input order (stated as the image of the element-wise wrap,
together with the length equation). -/
theorem c6_attendees (args : EventArgs) :
    (args.attendees = none → (createEventPayload args).attendees = none) ∧
    (∀ emails : List String, args.attendees = some emails →
      (createEventPayload args).attendees =
        some (emails.map (fun email => { email := email })) ∧
      (emails.map (fun email => ({ email := email } : Attendee))).length = emails.length) := by
  constructor
  · intro hnone
    cases hloc : args.location with
    | none => cases hrem : args.reminders <;>
        simp only [createEventPayload, hnone, hloc, hrem]
    | some l => cases hrem : args.reminders <;>
        by_cases hl : l = "" <;>
        simp only [createEventPayload, hnone, hloc, hrem, hl, if_true, if_false, ite_true,
          ite_false, reduceIte]
  · intro emails hsome
    refine ⟨?_, emails.length_map _⟩
    cases hloc : args.location with
    | none => cases hrem : args.reminders <;>
        simp only [createEventPayload, hsome, hloc, hrem]
    | some l => cases hrem : args.reminders <;>
        by_cases hl : l = "" <;>
        simp only [createEventPayload, hsome, hloc, hrem, hl, if_true, if_false, ite_true,
          ite_false, reduceIte]

/-- Witness for C6 at concrete inputs: no `attendees` field gives no
attendee list, and a two-element list is wrapped in order. -/
theorem c6_attendees_witness :
    (createEventPayload {}).attendees = none ∧
    (createEventPayload { attendees := some ["a@x.com", "b@y.com"] }).attendees =
      some [{ email := "a@x.com" }, { email := "b@y.com" }] :=
  ⟨(c6_attendees {}).1 rfl, ((c6_attendees _).2 ["a@x.com", "b@y.com"] rfl).1⟩

/-- Claim C8: for every argument bag the built event's start and end
sub-structures carry the given `start_time` and `end_time` values
unmodified, both are tagged with the fixed zone `Asia/Seoul`, and the
two zones coincide for every input. -/
theorem c8_times_and_zone (args : EventArgs) :
    (createEventPayload args).start.dateTime = args.start_time ∧
    (createEventPayload args).«end».dateTime = args.end_time ∧
    (createEventPayload args).start.timeZone = "Asia/Seoul" ∧
    (createEventPayload args).«end».timeZone = (createEventPayload args).start.timeZone := by
  cases hloc : args.location with
  | none => cases hrem : args.reminders <;> cases hatt : args.attendees <;>
      simp [createEventPayload, hloc, hrem, hatt]
  | some l => cases hrem : args.reminders <;> cases hatt : args.attendees <;>
      by_cases hl : l = "" <;>
      simp [createEventPayload, hloc, hrem, hatt, hl]

/-- Counterexample to claim C9 as stated: the `location` field is
present (the empty string), yet the built event carries no location,
because `if (args.location)` tests JavaScript truthiness, which is
false for the empty string. -/
theorem c9_counterexample :
    ({ location := some "" } : EventArgs).location = some "" ∧
    (createEventPayload { location := some "" }).location = none := ⟨rfl, by decide⟩

/-- Amended C9: a present and non-empty `location` is attached
verbatim, and an absent or empty-string `location` yields an event
with no location field. -/
theorem c9_location (args : EventArgs) :
    (∀ l : String, args.location = some l → l ≠ "" →
      (createEventPayload args).location = some l) ∧
    (args.location = none ∨ args.location = some "" →
      (createEventPayload args).location = none) := by
  constructor
  · intro l hl hne
    cases hrem : args.reminders <;> cases hatt : args.attendees <;>
      simp only [createEventPayload, hl, hrem, hatt, hne, if_false, ite_false, reduceIte]
  · rintro (hl | hl) <;>
      cases hrem : args.reminders <;> cases hatt : args.attendees <;>
      simp only [createEventPayload, hl, hrem, hatt, if_true, ite_true, reduceIte]

/-- Witness for the amended C9 at concrete inputs: a non-empty
location is attached verbatim, an empty one is dropped. -/
theorem c9_location_witness :
    (createEventPayload { location := some "Room 3" }).location = some "Room 3" ∧
    (createEventPayload { location := some "" }).location = none :=
  ⟨(c9_location _).1 "Room 3" rfl (by decide), (c9_location _).2 (Or.inr rfl)⟩

/-- The result the catch clause produces for an absent argument bag. -/
def noArgumentsResult : CallToolResult :=
  { content := [{ type := "text", text := "Error: " ++ "No arguments provided" }]
    isError := true }

/-- Helper: the no-arguments error text never coincides with an
unknown-tool text, whatever the tool name, since the two differ at
their first character. -/
theorem noArgumentsText_ne_unknownTool (s : String) :
    ("Error: " ++ "No arguments provided" : String) ≠ "Unknown tool: " ++ s := by
  intro h
  have hdata : ("Error: " ++ "No arguments provided" : String).data =
      ("Unknown tool: " ++ s).data := by rw [h]
  rw [String.data_append, String.data_append] at hdata
  simp at hdata

/-- Claim C3: for every call request with an absent arguments field,
the handler returns `isError = true` with the text carrying the
message `No arguments provided` (rendered by the catch clause as
`Error: No arguments provided`), for every tool name; the result is
the same for every remote client, so the tool handler is never
invoked. -/
theorem c3_no_arguments (insert : CalendarEvent → Except String String) (name : String) :
    callToolHandler insert { name := name, arguments := none } = noArgumentsResult ∧
    noArgumentsResult.isError = true ∧
    noArgumentsResult.content = [{ type := "text", text := "Error: " ++ "No arguments provided" }] :=
  ⟨rfl, rfl, rfl⟩

/-- Claim C4: for every call request naming a tool other than
`create_event` with an argument bag present, the handler returns a
structured result with `isError = true` whose text is
`Unknown tool: <name>` — in particular it contains the name — for
every remote client; the call is total, so nothing propagates past
the dispatch boundary. -/
theorem c4_unknown_tool (insert : CalendarEvent → Except String String)
    (args : EventArgs) (name : String) (h : name ≠ "create_event") :
    callToolHandler insert { name := name, arguments := some args } =
      { content := [{ type := "text", text := "Unknown tool: " ++ name }]
        isError := true } ∧
    ∃ p : String, "Unknown tool: " ++ name = p ++ name := by
  refine ⟨?_, "Unknown tool: ", rfl⟩
  simp only [callToolHandler, h, if_false, ite_false, reduceIte]

/-- Witness for C4 at the concrete unknown name `delete_event`. -/
theorem c4_unknown_tool_witness :
    callToolHandler (fun _ => Except.ok "x") { name := "delete_event", arguments := some {} } =
      { content := [{ type := "text", text := "Unknown tool: " ++ "delete_event" }]
        isError := true } :=
  (c4_unknown_tool _ {} "delete_event" (by decide)).1

/-- Claim C5: for every `create_event` call whose remote insertion is
rejected with message `m`, the handler returns `isError = true` with
text `Error: Failed to create event: <m>` — which contains `m` — and
the conversion happens at the dispatch boundary (the handler is total:
it returns this structured result rather than letting the failure
escape). -/
theorem c5_remote_rejection (args : EventArgs) (m : String) :
    callToolHandler (fun _ => Except.error m) { name := "create_event", arguments := some args } =
      { content := [{ type := "text", text := "Error: " ++ ("Failed to create event: " ++ m) }]
        isError := true } ∧
    ∃ p : String, "Error: " ++ ("Failed to create event: " ++ m) = p ++ m := by
  refine ⟨rfl, "Error: " ++ "Failed to create event: ", ?_⟩
  apply String.ext
  simp [String.data_append]

/-- Claim C10: the missing-arguments check takes precedence over
tool-name resolution: with an absent arguments field the handler
returns the no-arguments error for every tool name and every client —
in particular for names other than `create_event` — and that result's
text is never the unknown-tool message for any name. -/
theorem c10_no_arguments_precedence (insert : CalendarEvent → Except String String)
    (name : String) :
    callToolHandler insert { name := name, arguments := none } = noArgumentsResult ∧
    (∀ s : String,
      noArgumentsResult ≠
        { content := [{ type := "text", text := "Unknown tool: " ++ s }], isError := true }) := by
  refine ⟨rfl, fun s hcontra => ?_⟩
  have htext : ("Error: " ++ "No arguments provided" : String) = "Unknown tool: " ++ s := by
    have := congrArg CallToolResult.content hcontra
    simpa [noArgumentsResult] using this
  exact noArgumentsText_ne_unknownTool s htext

/-- Witness for C10 at a concrete unknown name and client: the
request still gets the no-arguments result, which is not the
unknown-tool result for that name. -/
theorem c10_no_arguments_precedence_witness :
    callToolHandler (fun _ => Except.ok "x") { name := "delete_event", arguments := none } =
      noArgumentsResult ∧
    noArgumentsResult ≠
      { content := [{ type := "text", text := "Unknown tool: " ++ "delete_event" }]
        isError := true } :=
  ⟨(c10_no_arguments_precedence (fun _ => Except.ok "x") "delete_event").1,
   (c10_no_arguments_precedence (fun _ => Except.ok "x") "delete_event").2 "delete_event"⟩

/-- Counterexample to claim C7 as stated: with the threshold
configured to `info` (rank 2) a `debug`-severity line (rank 3) is
still emitted by the code, although the claimed rank rule says it
must be suppressed — `debugLog` in the source has no threshold at all
and consults no `MCP_LOG_LEVEL`. -/
theorem c7_counterexample :
    debugLogEmits 2 3 = true ∧ specLogEmits 2 3 = false := by decide

/-- Amended C7: the code has no log-level filtering: `debugLog` emits
its line unconditionally, for every purported threshold and severity
rank, so no configuration suppresses any diagnostic line. -/
theorem c7_unconditional_logging (threshold severity : Nat) :
    debugLogEmits threshold severity = true := rfl

end GCalendar
